import Mathlib

/-!
Verification of the multi-phase entertainment recommendation pipeline
implemented in src/agents/enhanced_entertainment_discovery.py.

The Python program is embedded shallowly:

* Python floats are modelled as rational numbers; the arithmetic the
  program performs on them (sums, products, divisions, comparisons) is
  embedded exactly.  Calls of the form round(x, k), which only affect the
  displayed precision of stored values, are omitted; no verified property
  depends on them.
* Python dicts used as keyed maps are modelled as association lists with
  insert-or-overwrite update, mirroring insertion-order semantics.
* The pseudo-random draws (random.uniform, random.choice, random.sample,
  random.randint) that simulate external review/trend/rating providers are
  modelled as explicit oracle inputs, one draw per title, collected in the
  Draws structure.  Every run of the Python program corresponds to some
  value of Draws.
* A raised exception that is caught by the coordinator is modelled with
  Except: the one reachable exception on the embedded paths is the
  ZeroDivisionError of the mean-rating computation of AnalysisAgent.
* Python sorted with reverse := True is a stable descending sort; it is
  embedded as insertion sort with the non-strict descending relation on
  the sort key, which computes the unique stable descending ordering.
* asyncio.gather of the two phase-1 tasks and of the two phase-3 tasks is
  modelled by sequential composition; the tasks write disjoint fields of
  disjoint records, so the merge is order-independent.
-/

/-- Association-list model of a Python dict: lookup of a key. -/
def dictGet? {α : Type} (d : List (String × α)) (k : String) : Option α :=
  (d.find? (fun p => p.1 = k)).map (·.2)

/-- Association-list model of a Python dict: lookup with default, as in d.get(k, v). -/
def dictGetD {α : Type} (d : List (String × α)) (k : String) (v : α) : α :=
  (dictGet? d k).getD v

/-- Association-list model of a Python dict: insert-or-overwrite, as in d[k] = v. -/
def dictSet {α : Type} (d : List (String × α)) (k : String) (v : α) : List (String × α) :=
  match d with
  | [] => [(k, v)]
  | (k0, v0) :: rest => if k0 = k then (k0, v) :: rest else (k0, v0) :: dictSet rest k v

/-- Python max on two rationals. -/
def pymax (a b : ℚ) : ℚ := if a ≤ b then b else a

/-- Python min on two rationals. -/
def pymin (a b : ℚ) : ℚ := if a ≤ b then a else b

/-- A candidate title as produced by the content provider: the three keys
of each seed dict of ResearchAgent.execute. -/
structure Seed where
  title : String
  genre : String
  rating : ℚ
deriving DecidableEq

/-- Multi-source review scores attached by ReviewAggregationAgent
(review_data; the round-to-one-decimal presentation calls are omitted). -/
structure ReviewData where
  imdb : ℚ
  rotten_tomatoes : ℚ
  metacritic : ℚ
  audience_score : ℚ
deriving DecidableEq

/-- Trend signals attached by TrendAnalysisAgent (trend_data). -/
structure TrendData where
  trending_score : ℚ
  social_mentions : ℕ
  search_volume : ℕ
  watch_velocity : String
  viral_moments : ℕ
  is_trending : Bool
  trending_rank : Option ℕ
deriving DecidableEq

/-- Social-proof counters attached by TrendAnalysisAgent (social_proof). -/
structure SocialProof where
  friends_watching : ℕ
  recommended_by_influencers : ℕ
  award_nominations : ℕ
deriving DecidableEq

/-- The four boolean sub-checks and the derived approved flag stored by
ContentFilterAgent under filter_status. -/
structure FilterStatus where
  passes_rating : Bool
  passes_genre : Bool
  passes_quality : Bool
  passes_warnings : Bool
  approved : Bool
deriving DecidableEq

/-- A candidate item flowing through the pipeline: the dict created from a
seed and progressively enriched by the stages.  Fields a stage has not yet
written are none, mirroring absent dict keys. -/
structure Item where
  title : String
  genre : String
  rating : ℚ
  platform : String
  review_data : Option ReviewData := none
  trust_score : Option ℚ := none
  review_consensus : Option String := none
  total_reviews : Option ℕ := none
  trend_data : Option TrendData := none
  social_proof : Option SocialProof := none
  content_rating : Option String := none
  content_warnings : Option (List String) := none
  filter_status : Option FilterStatus := none
  personalized_score : Option ℚ := none
  final_score : Option ℚ := none
deriving DecidableEq

/-- The user profile dict consumed by PersonalizationAgent.execute; option
fields model keys that may be absent, read through dict get with the
documented defaults. -/
structure UserProfile where
  viewing_history : List (String × String) := []
  favorite_genres : Option (List String) := none
  disliked_genres : Option (List String) := none
  min_rating : Option ℚ := none
  favorite_actors : List String := []
  preferred_length : Option String := none
  freshness : Option String := none

/-- The session context dict consumed by MoodDetectionAgent.execute. -/
structure SessionContext where
  query : String := ""
  time_of_day : Option String := none
  day_of_week : Option String := none
  weather : Option String := none

/-- The filter-criteria dict consumed by ContentFilterAgent.execute. -/
structure Filters where
  max_content_rating : Option String := none
  exclude_genres : List String := []
  min_quality_score : Option ℚ := none
  content_warnings_ok : Option Bool := none

/-- The preference record produced by PersonalizationAgent.execute. -/
structure Prefs where
  genre_weights : List (String × ℚ)
  preferred_length : String
  favorite_actors : List String
  watched_recently : List String
  preferred_rating_threshold : ℚ
  content_freshness : String

/-- The mood profile produced by MoodDetectionAgent.execute. -/
structure MoodProfile where
  detected_mood : String
  time_of_day : String
  day_of_week : String
  suggested_tones : List String
  suggested_length : String
  energy_level : String

/-- Explicit oracle inputs standing for the pseudo-random draws of the
simulated external providers, one draw per title. -/
structure Draws where
  rtJitter : String → ℚ := fun _ => 0
  mcJitter : String → ℚ := fun _ => 0
  audJitter : String → ℚ := fun _ => 0
  totalReviews : String → ℕ := fun _ => 1000
  daysSinceRelease : String → ℚ := fun _ => 0
  socialMentions : String → ℕ := fun _ => 1000
  searchVolume : String → ℕ := fun _ => 10000
  watchVelocity : String → String := fun _ => "stable"
  viralMoments : String → ℕ := fun _ => 0
  trendingRankDraw : String → ℕ := fun _ => 1
  friendsWatching : String → ℕ := fun _ => 0
  influencerRecs : String → ℕ := fun _ => 0
  awardNominations : String → ℕ := fun _ => 0
  contentRatingDraw : String → String := fun _ => "G"
  warningsDraw : String → List String := fun _ => []

/-- Embeds the genre-weight loop of PersonalizationAgent.execute: every
favorite genre is assigned multiplier 1.5, then every disliked genre is
assigned multiplier 0.3 into the same dict. -/
def genreWeights (favorite_genres disliked_genres : List String) : List (String × ℚ) :=
  let afterFavs := favorite_genres.foldl (fun d g => dictSet d g 1.5) []
  disliked_genres.foldl (fun d g => dictSet d g 0.3) afterFavs

/-- Embeds PersonalizationAgent.execute: derives the preference record from
the user profile, applying the documented defaults for absent keys. -/
def personalizationExecute (user_profile : UserProfile) : Prefs :=
  let favorite_genres := user_profile.favorite_genres.getD ["sci-fi", "drama"]
  let disliked_genres := user_profile.disliked_genres.getD ["horror"]
  { genre_weights := genreWeights favorite_genres disliked_genres
    preferred_length := user_profile.preferred_length.getD "any"
    favorite_actors := user_profile.favorite_actors
    watched_recently := (user_profile.viewing_history.drop
      (user_profile.viewing_history.length - 5)).map (·.1)
    preferred_rating_threshold := user_profile.min_rating.getD 7.0
    content_freshness := user_profile.freshness.getD "balanced" }

/-- Case-insensitive substring containment, as in kw in query.lower(),
computed on the character lists of the two strings. -/
def containsKw (query kw : String) : Bool :=
  (List.range (query.data.length + 1)).any
    (fun i => kw.data.isPrefixOf ((query.data.map Char.toLower).drop i))

/-- The four fixed keyword sets of MoodDetectionAgent, in scan order. -/
def moodIndicators : List (String × List String) :=
  [("relaxed", ["chill", "relax", "unwind", "cozy"]),
   ("energetic", ["exciting", "action", "intense", "thrilling"]),
   ("thoughtful", ["deep", "meaningful", "drama", "complex"]),
   ("fun", ["fun", "comedy", "light", "entertaining"])]

/-- First mood whose keyword set matches the query, else neutral. -/
def detectMood (query : String) : String :=
  match moodIndicators.find? (fun p => p.2.any (containsKw query)) with
  | some p => p.1
  | none => "neutral"

/-- The time-of-day suggestion dict of MoodDetectionAgent. -/
def timeSuggestions : List (String × List String) :=
  [("morning", ["light", "uplifting", "short"]),
   ("afternoon", ["engaging", "moderate-length"]),
   ("evening", ["immersive", "long-form"]),
   ("night", ["relaxing", "comfort-watch"])]

/-- Embeds MoodDetectionAgent.execute: detects the mood from the free-text
query and derives the contextual suggestions. -/
def moodDetectionExecute (context : SessionContext) : MoodProfile :=
  let time_of_day := context.time_of_day.getD "evening"
  let day_of_week := context.day_of_week.getD "friday"
  let detected_mood := detectMood context.query
  { detected_mood
    time_of_day
    day_of_week
    suggested_tones := dictGetD timeSuggestions time_of_day ["any"]
    suggested_length := if day_of_week = "friday" ∨ day_of_week = "saturday"
      then "long" else "medium"
    energy_level := if detected_mood = "energetic" then "high" else "moderate" }

/-- Embeds the trust-score computation of ReviewAggregationAgent.execute:
ten minus a twentieth of the population variance of the three primary
scores, clamped to the interval from zero to ten. -/
def trustScore (s1 s2 s3 : ℚ) : ℚ :=
  let mean := (s1 + s2 + s3) / 3
  let variance := ((s1 - mean) ^ 2 + (s2 - mean) ^ 2 + (s3 - mean) ^ 2) / 3
  pymax 0 (pymin 10 (10 - variance / 20))

/-- The population variance of the three primary scores, as computed at
the variance line of ReviewAggregationAgent.execute. -/
def reviewVariance (s1 s2 s3 : ℚ) : ℚ :=
  let mean := (s1 + s2 + s3) / 3
  ((s1 - mean) ^ 2 + (s2 - mean) ^ 2 + (s3 - mean) ^ 2) / 3

/-- Embeds the per-item enrichment of ReviewAggregationAgent.execute. -/
def reviewEnrich (o : Draws) (item : Item) : Item :=
  let imdb_score := item.rating
  let rt_score := imdb_score * 10 + o.rtJitter item.title
  let metacritic := imdb_score * 10 + o.mcJitter item.title
  let audience_score := imdb_score + o.audJitter item.title
  let variance := reviewVariance (imdb_score * 10) rt_score metacritic
  { item with
    review_data := some
      { imdb := imdb_score
        rotten_tomatoes := pymax 0 (pymin 100 rt_score)
        metacritic := pymax 0 (pymin 100 metacritic)
        audience_score := audience_score }
    trust_score := some (trustScore (imdb_score * 10) rt_score metacritic)
    review_consensus := some (if variance < 50 then "strong" else "mixed")
    total_reviews := some (o.totalReviews item.title) }

/-- Embeds ReviewAggregationAgent.execute over a candidate list: every item
is enriched and appended; no candidate is dropped. -/
def reviewAggregationExecute (o : Draws) (content_list : List Item) : List Item :=
  content_list.map (reviewEnrich o)

/-- Embeds the per-item enrichment of TrendAnalysisAgent.execute. -/
def trendEnrich (o : Draws) (item : Item) : Item :=
  let days_since_release := o.daysSinceRelease item.title
  let base_popularity := item.rating * 10
  let recency_boost := pymax 0 (30 - days_since_release / 10)
  let trend_score := base_popularity + recency_boost
  { item with
    trend_data := some
      { trending_score := trend_score
        social_mentions := o.socialMentions item.title
        search_volume := o.searchVolume item.title
        watch_velocity := o.watchVelocity item.title
        viral_moments := o.viralMoments item.title
        is_trending := 85 < trend_score
        trending_rank := if 85 < trend_score then some (o.trendingRankDraw item.title) else none }
    social_proof := some
      { friends_watching := o.friendsWatching item.title
        recommended_by_influencers := o.influencerRecs item.title
        award_nominations := o.awardNominations item.title } }

/-- Embeds TrendAnalysisAgent.execute over a candidate list: every item is
enriched in place; no candidate is dropped. -/
def trendAnalysisExecute (o : Draws) (content_list : List Item) : List Item :=
  content_list.map (trendEnrich o)

/-- The fixed content-rating hierarchy of ContentFilterAgent.execute. -/
def ratingHierarchy : List String := ["G", "PG", "PG-13", "TV-14", "R", "TV-MA"]

/-- The rating ceiling level: index of max_content_rating in the hierarchy
when it is a known label, else the length of the hierarchy (no ceiling). -/
def maxRatingLevel (max_rating : String) : ℕ :=
  if max_rating ∈ ratingHierarchy
  then ratingHierarchy.indexOf max_rating
  else ratingHierarchy.length

/-- Embeds the four boolean checks and the approved flag computed for one
item by ContentFilterAgent.execute, given the content rating and warning
list the stage has assigned to the item. -/
def filterStatusOf (max_rating : String) (exclude_genres : List String)
    (min_quality : ℚ) (content_warnings_ok : Bool)
    (crated : String) (cwarnings : List String) (genre : String) (rating : ℚ) : FilterStatus :=
  let rating_level := ratingHierarchy.indexOf crated
  let passes_rating := rating_level ≤ maxRatingLevel max_rating
  let passes_genre := ¬ (genre ∈ exclude_genres)
  let passes_quality := min_quality ≤ rating
  let passes_warnings := content_warnings_ok ∨ "none" ∈ cwarnings
  { passes_rating := passes_rating
    passes_genre := passes_genre
    passes_quality := passes_quality
    passes_warnings := passes_warnings
    approved := passes_rating && passes_genre && passes_quality && passes_warnings }

/-- Per-item enrichment of ContentFilterAgent.execute: assign the drawn
content rating and warnings, then store the filter status. -/
def filterEnrich (o : Draws) (filters : Filters) (item : Item) : Item :=
  let crated := o.contentRatingDraw item.title
  let cwarnings := o.warningsDraw item.title
  { item with
    content_rating := some crated
    content_warnings := some cwarnings
    filter_status := some (filterStatusOf (filters.max_content_rating.getD "TV-MA")
      filters.exclude_genres (filters.min_quality_score.getD 7.0)
      (filters.content_warnings_ok.getD true) crated cwarnings item.genre item.rating) }

/-- Reads the approved flag of the stored filter status, false when the
status has not been stored. -/
def itemApproved (item : Item) : Bool :=
  match item.filter_status with
  | some st => st.approved
  | none => false

/-- The partition and counts returned by ContentFilterAgent.execute. -/
structure FilterOutput where
  approved : List Item
  filtered_out : List Item
  total_checked : ℕ
  approved_count : ℕ
  filtered_count : ℕ
deriving DecidableEq

/-- Embeds ContentFilterAgent.execute: enriches every item with its drawn
content rating, warning list and filter status, partitions the input into
the approved and filtered-out lists in input order, and reports the counts
of the filter_stats dict. -/
def contentFilterExecute (o : Draws) (content_list : List Item) (filters : Filters) :
    FilterOutput :=
  let enriched := content_list.map (filterEnrich o filters)
  let filtered_content := enriched.filter itemApproved
  let rejected := enriched.filter (fun it => ! itemApproved it)
  { approved := filtered_content
    filtered_out := rejected
    total_checked := content_list.length
    approved_count := filtered_content.length
    filtered_count := rejected.length }

/-- The mood-specific genre boost table of AnalysisAgent.execute. -/
def moodBoosts : List (String × List (String × ℚ)) :=
  [("energetic", [("action", 1.2), ("sci-fi", 1.1)]),
   ("relaxed", [("comedy", 1.2), ("animation", 1.1)]),
   ("thoughtful", [("drama", 1.2), ("documentary", 1.1)])]

/-- The boost applied to one genre for one detected mood, as in
mood_boosts.get(detected_mood, empty dict).get(genre, 1.0). -/
def moodBoostOf (detected_mood genre : String) : ℚ :=
  dictGetD (dictGetD moodBoosts detected_mood []) genre 1.0

/-- The preference-weight step of AnalysisAgent.execute for one show:
personalized_score is the base rating times the genre weight, which
defaults to 1.0 for a genre without an entry. -/
def applyPrefs (preferences : Prefs) (show0 : Item) : Item :=
  { show0 with
    personalized_score := some (show0.rating * dictGetD preferences.genre_weights show0.genre 1.0) }

/-- The mood-adjustment step of AnalysisAgent.execute for one show:
final_score is the current score (personalized when present, else the base
rating) times the mood-genre boost. -/
def applyMood (mood : MoodProfile) (show0 : Item) : Item :=
  { show0 with
    final_score := some ((show0.personalized_score.getD show0.rating) * moodBoostOf mood.detected_mood show0.genre) }

/-- The sort key read by AnalysisAgent.execute: the highest-precedence
score key present given which inputs were supplied (final_score when a
mood profile was supplied, else personalized_score when preferences were
supplied, else the base rating), read with the base rating as fallback. -/
def scoreKey (preferences : Option Prefs) (mood : Option MoodProfile) (show0 : Item) : ℚ :=
  match mood, preferences with
  | some _, _ => show0.final_score.getD show0.rating
  | none, some _ => show0.personalized_score.getD show0.rating
  | none, none => show0.rating

/-- Stable descending sort by a rational key: insertion sort with the
non-strict descending relation, the unique stable ordering computed by
Python sorted with reverse set. -/
def sortDescBy {α : Type} (k : α → ℚ) (l : List α) : List α :=
  List.insertionSort (fun a b => k b ≤ k a) l

/-- The scoring part of AnalysisAgent.execute: apply the preference step to
every show when preferences are supplied, then the mood step to every show
when a mood profile is supplied. -/
def scoreShows (preferences : Option Prefs) (mood : Option MoodProfile)
    (all_shows : List Item) : List Item :=
  let withPrefs := match preferences with
    | some p => all_shows.map (applyPrefs p)
    | none => all_shows
  match mood with
  | some m => withPrefs.map (applyMood m)
  | none => withPrefs

/-- The ranking of AnalysisAgent.execute: score the shows, then sort in
descending order of the selected score key. -/
def rankShows (preferences : Option Prefs) (mood : Option MoodProfile)
    (all_shows : List Item) : List Item :=
  sortDescBy (scoreKey preferences mood) (scoreShows preferences mood all_shows)

/-- The analysis record built by AnalysisAgent.execute. -/
structure Analysis where
  ranked_content : List Item
  total_analyzed : ℕ
  genre_distribution : List (String × ℕ)
  platform_distribution : List (String × ℕ)
  average_rating : ℚ
  personalization_applied : Bool
  mood_adjusted : Bool

/-- The incremental counting dict of AnalysisAgent.execute. -/
def distributionOf (keys : List String) : List (String × ℕ) :=
  keys.foldl (fun d g => dictSet d g (dictGetD d g 0 + 1)) []

/-- The flattening loop at the top of AnalysisAgent.execute: the input
dict mapping platforms to show lists is flattened, re-stamping each show
with its platform key. -/
def analysisAllShows (data : List (String × List Item)) : List Item :=
  data.flatMap (fun pr => pr.2.map (fun s => { s with platform := pr.1 }))

/-- The analysis record AnalysisAgent.execute builds over the flattened
show list: score, rank and summarize. -/
def analysisBody (preferences : Option Prefs) (mood : Option MoodProfile)
    (all_shows : List Item) : Analysis :=
  let scored := scoreShows preferences mood all_shows
  { ranked_content := rankShows preferences mood all_shows
    total_analyzed := all_shows.length
    genre_distribution := distributionOf (scored.map (·.genre))
    platform_distribution := distributionOf (scored.map (·.platform))
    average_rating := (scored.map (·.rating)).sum / all_shows.length
    personalization_applied := preferences.isSome
    mood_adjusted := mood.isSome }

/-- Embeds AnalysisAgent.execute.  The mean base rating divides by the
number of shows: on an empty show list the ZeroDivisionError of the Python
code is modelled as an error value carrying the Python exception text. -/
def analysisExecute (data : List (String × List Item))
    (preferences : Option Prefs) (mood : Option MoodProfile) : Except String Analysis :=
  let all_shows := analysisAllShows data
  if all_shows.length = 0 then .error "division by zero"
  else .ok (analysisBody preferences mood all_shows)

/-- One user-facing recommendation record built by RecommendationAgent.
The presentation helpers (reason strings, confidence label, summaries,
tags) are built from fields no verified property reads and are embedded
through the same field reads the Python helpers perform. -/
structure Recommendation where
  rank : ℕ
  title : String
  platform : String
  genre : String
  rating : ℚ
  final_score : ℚ
  confidence : String
deriving DecidableEq

/-- Embeds RecommendationAgent._calculate_confidence. -/
def calculateConfidence (show0 : Item) : String :=
  let score := show0.final_score.getD (show0.rating)
  let trust := show0.trust_score.getD 7.0
  if 9.0 < score ∧ 8.0 < trust then "Very High"
  else if 8.5 < score ∧ 7.0 < trust then "High"
  else if 8.0 < score then "Medium"
  else "Low"

/-- The insights dict of RecommendationAgent.execute. -/
structure Insights where
  total_options : ℕ
  avg_quality : ℚ
  popular_genres : List (String × ℕ)
  personalized : Bool
  mood_aware : Bool

/-- The result payload of RecommendationAgent.execute. -/
structure RecResults where
  recommendations : List Recommendation
  insights : Insights

/-- Embeds RecommendationAgent.execute over an analysis record.  The merge
of review and trend detail by title lookup re-writes onto each ranked item
the fields already carried by the same item and is the identity here; the
top five ranked items become recommendation records. -/
def recommendationExecute (analysis : Analysis) : RecResults :=
  let ranked := analysis.ranked_content
  let recommendations := (ranked.take 5).enum.map (fun pr =>
    { rank := pr.1 + 1
      title := pr.2.title
      platform := pr.2.platform
      genre := pr.2.genre
      rating := pr.2.rating
      final_score := pr.2.final_score.getD (pr.2.personalized_score.getD pr.2.rating)
      confidence := calculateConfidence pr.2 })
  { recommendations := recommendations
    insights :=
      { total_options := analysis.total_analyzed
        avg_quality := analysis.average_rating
        popular_genres := analysis.genre_distribution
        personalized := analysis.personalization_applied
        mood_aware := analysis.mood_adjusted } }

/-- The workflow statistics of CoordinatorAgent.execute. -/
structure WorkflowStats where
  agents_involved : ℕ
  total_processed : ℕ
  approved : ℕ
  filtered : ℕ
  personalized : Bool
  mood_aware : Bool
  safety_checked : Bool

/-- The success payload of CoordinatorAgent.execute: the recommendation
results plus the workflow statistics. -/
structure PipelineResult where
  results : RecResults
  workflow_stats : WorkflowStats

/-- Flattens the platform-keyed candidate map into the all_shows list,
stamping each show with its platform, as done in phase 3 of
CoordinatorAgent.execute. -/
def flattenCandidates (research_data : List (String × List Seed)) : List Item :=
  research_data.flatMap (fun pr => pr.2.map (fun s =>
    { title := s.title, genre := s.genre, rating := s.rating, platform := pr.1 }))

/-- Groups the approved list by platform for phase 5 of
CoordinatorAgent.execute: one entry per distinct platform, carrying the
approved items of that platform in order.  The Python comprehension
iterates a set of platform strings; membership and counts of the flattened
result are independent of that iteration order, which is fixed here to
first-appearance order. -/
def regroupByPlatform (approved : List Item) : List (String × List Item) :=
  ((approved.map (·.platform)).dedup).map (fun p =>
    (p, approved.filter (fun s => s.platform = p)))

/-- Embeds CoordinatorAgent.execute, the entry point the specification
calls RunPipeline: phase 1 derives preferences and mood, phase 2 takes the
platform-keyed candidate map of the content provider, phase 3 enriches all
candidates with review and trend data, phase 4 filters, phase 5 analyzes
the approved candidates grouped by platform, phase 6 builds the
recommendations.  A stage exception becomes a top-level error result. -/
def runPipeline (user_profile : UserProfile) (context : SessionContext)
    (filters : Filters) (o : Draws) (research_data : List (String × List Seed)) :
    Except String PipelineResult :=
  let preferences := personalizationExecute user_profile
  let mood := moodDetectionExecute context
  let all_shows := flattenCandidates research_data
  let enriched := trendAnalysisExecute o (reviewAggregationExecute o all_shows)
  let filter_result := contentFilterExecute o enriched filters
  match analysisExecute (regroupByPlatform filter_result.approved)
      (some preferences) (some mood) with
  | .error e => .error e
  | .ok analysis =>
    .ok { results := recommendationExecute analysis
          workflow_stats :=
            { agents_involved := 8
              total_processed := filter_result.total_checked
              approved := filter_result.approved_count
              filtered := filter_result.filtered_count
              personalized := true
              mood_aware := true
              safety_checked := true } }

/-- The fixed candidate catalog returned by ResearchAgent.execute. -/
def researchResults : List (String × List Seed) :=
  [("netflix",
    [{ title := "Stranger Things", genre := "sci-fi", rating := 8.7 },
     { title := "The Crown", genre := "drama", rating := 8.6 },
     { title := "Arcane", genre := "animation", rating := 9.0 },
     { title := "Wednesday", genre := "comedy", rating := 8.1 }]),
   ("disney_plus",
    [{ title := "The Mandalorian", genre := "sci-fi", rating := 8.7 },
     { title := "Loki", genre := "sci-fi", rating := 8.2 },
     { title := "Andor", genre := "sci-fi", rating := 8.6 }]),
   ("hbo_max",
    [{ title := "House of the Dragon", genre := "fantasy", rating := 8.5 },
     { title := "The Last of Us", genre := "drama", rating := 8.8 },
     { title := "Succession", genre := "drama", rating := 8.9 }]),
   ("prime_video",
    [{ title := "The Boys", genre := "action", rating := 8.7 },
     { title := "The Marvelous Mrs. Maisel", genre := "comedy", rating := 8.7 }]),
   ("apple_tv",
    [{ title := "Ted Lasso", genre := "comedy", rating := 8.8 },
     { title := "Severance", genre := "sci-fi", rating := 8.7 }])]

/-- The enrichment-independent core of an item: the item with its two
ranking-score fields cleared, used to compare rankings that differ only in
which score fields were written. -/
def coreOf (it : Item) : Item :=
  { it with personalized_score := none, final_score := none }

/-- The recommendation list of a pipeline outcome; an error outcome
carries no recommendations. -/
def recommendationsOf (x : Except String PipelineResult) : List Recommendation :=
  match x with
  | .ok r => r.results.recommendations
  | .error _ => []

/-- The total-options insight of a pipeline outcome, zero on error. -/
def pipelineTotalOptions (x : Except String PipelineResult) : ℕ :=
  match x with
  | .ok r => r.results.insights.total_options
  | .error _ => 0

/-- The approved workflow statistic of a pipeline outcome, zero on error. -/
def pipelineApprovedCount (x : Except String PipelineResult) : ℕ :=
  match x with
  | .ok r => r.workflow_stats.approved
  | .error _ => 0

/-- The total-processed workflow statistic of a pipeline outcome, zero on
error. -/
def pipelineTotalProcessed (x : Except String PipelineResult) : ℕ :=
  match x with
  | .ok r => r.workflow_stats.total_processed
  | .error _ => 0

/-- Concrete filter criteria for the counterexample runs: genre horror is
excluded, every other check is permissive. -/
def cexFilters : Filters :=
  { exclude_genres := ["horror"], min_quality_score := some 0 }

/-- Concrete two-candidate catalog: one permitted sci-fi title and one
excluded horror title of base rating 9.5. -/
def cexCandidates : List (String × List Seed) :=
  [("netflix",
    [{ title := "A", genre := "sci-fi", rating := 9 },
     { title := "B", genre := "horror", rating := 9.5 }])]

/-- The concrete pipeline run over cexCandidates with cexFilters, default
profile and context, and the default draw oracles. -/
def cexRun : Except String PipelineResult :=
  runPipeline {} {} cexFilters {} cexCandidates

/-- The horror candidate of cexCandidates as it reaches the filter stage,
enriched by the review and trend stages. -/
def cexHorrorItem : Item :=
  trendEnrich {} (reviewEnrich {}
    { title := "B", genre := "horror", rating := 9.5, platform := "netflix" })

/-- The phase-3 output of the concrete run: the flattened candidates
enriched by the review and trend stages. -/
def cexEnriched : List Item :=
  trendAnalysisExecute {} (reviewAggregationExecute {} (flattenCandidates cexCandidates))

/-- Lookup on a cons cell of an association list. -/
theorem dictGet?_cons {α : Type} (k1 : String) (w : α) (t : List (String × α)) (k0 : String) :
    dictGet? ((k1, w) :: t) k0 = if k1 = k0 then some w else dictGet? t k0 := by
  by_cases h : k1 = k0 <;> simp [dictGet?, List.find?, h]

/-- Lookup after an insert-or-overwrite update. -/
theorem dictGet?_dictSet {α : Type} (d : List (String × α)) (k k0 : String) (v : α) :
    dictGet? (dictSet d k v) k0 = if k0 = k then some v else dictGet? d k0 := by
  induction d with
  | nil =>
    rw [show dictSet ([] : List (String × α)) k v = [(k, v)] from rfl, dictGet?_cons]
    by_cases h : k0 = k
    · simp [h]
    · have h2 : ¬ (k = k0) := fun e => h e.symm
      simp [h, h2, dictGet?]
  | cons p rest ih =>
    obtain ⟨k1, v1⟩ := p
    by_cases h1 : k1 = k
    · rw [show dictSet ((k1, v1) :: rest) k v = (k1, v) :: rest from by simp [dictSet, h1]]
      rw [dictGet?_cons, dictGet?_cons]
      by_cases h0 : k1 = k0
      · have hk : k0 = k := by rw [← h0, h1]
        simp [h0, hk]
      · have hk : ¬ (k0 = k) := by
          intro e
          exact h0 (by rw [h1, ← e])
        simp [h0, hk]
    · rw [show dictSet ((k1, v1) :: rest) k v = (k1, v1) :: dictSet rest k v from by
        simp [dictSet, h1]]
      rw [dictGet?_cons, dictGet?_cons, ih]
      by_cases h0 : k1 = k0
      · have hk : ¬ (k0 = k) := by
          intro e
          exact h1 (by rw [h0, e])
        simp [h0, hk]
      · simp [h0]

/-- Lookup after assigning one constant value to every key of a list. -/
theorem dictGet?_foldl_const {α : Type} (v : α) (L : List String) :
    ∀ (d : List (String × α)) (g : String),
      dictGet? (L.foldl (fun d0 x => dictSet d0 x v) d) g =
        if g ∈ L then some v else dictGet? d g := by
  induction L with
  | nil => intro d g; simp
  | cons a L ih =>
    intro d g
    simp only [List.foldl_cons]
    rw [ih]
    by_cases hL : g ∈ L
    · simp [hL]
    · by_cases ha : g = a
      · subst ha
        simp [hL, dictGet?_dictSet]
      · simp [hL, ha, dictGet?_dictSet]

/-- A two-sided bound for the Python clamp pattern. -/
theorem pymax_pymin_bounds (x : ℚ) : 0 ≤ pymax 0 (pymin 10 x) ∧ pymax 0 (pymin 10 x) ≤ 10 := by
  unfold pymax pymin
  by_cases h1 : (10:ℚ) ≤ x
  · simp only [if_pos h1]
    norm_num
  · simp only [if_neg h1]
    by_cases h2 : (0:ℚ) ≤ x
    · simp only [if_pos h2]
      exact ⟨h2, by linarith [not_le.mp h1]⟩
    · simp only [if_neg h2]
      norm_num

/-- The review variance is nonnegative. -/
theorem reviewVariance_nonneg (s1 s2 s3 : ℚ) : 0 ≤ reviewVariance s1 s2 s3 := by
  unfold reviewVariance
  positivity

/-- The review variance of an all-equal triple is zero. -/
theorem reviewVariance_eq_zero (s : ℚ) : reviewVariance s s s = 0 := by
  unfold reviewVariance
  have h : (s + s + s) / 3 = s := by ring
  rw [h]
  ring

/-- The stable descending sort produces a list sorted by the non-strict
descending key relation. -/
theorem sortDescBy_sorted {α : Type} (k : α → ℚ) (l : List α) :
    (sortDescBy k l).Sorted (fun a b => k b ≤ k a) := by
  haveI : IsTotal α (fun a b => k b ≤ k a) := ⟨fun a b => le_total (k b) (k a)⟩
  haveI : IsTrans α (fun a b => k b ≤ k a) := ⟨fun _ _ _ h1 h2 => le_trans h2 h1⟩
  exact List.sorted_insertionSort _ l

/-- The stable descending sort permutes its input. -/
theorem sortDescBy_perm {α : Type} (k : α → ℚ) (l : List α) : List.Perm (sortDescBy k l) l :=
  List.perm_insertionSort _ l

/-- Filtering one key value through an ordered insertion: the inserted
element lands in front of the equal-key elements already present exactly
when it carries the filtered value. -/
theorem filter_key_orderedInsert {α : Type} (k : α → ℚ) (v : ℚ) (a : α) (L : List α) :
    (List.orderedInsert (fun x y => k y ≤ k x) a L).filter (fun x => k x = v) =
      if k a = v then a :: L.filter (fun x => k x = v)
      else L.filter (fun x => k x = v) := by
  induction L with
  | nil =>
    by_cases hv : k a = v <;> simp [List.orderedInsert, List.filter, hv]
  | cons b L ih =>
    by_cases hr : k b ≤ k a
    · have hins : List.orderedInsert (fun x y => k y ≤ k x) a (b :: L) = a :: b :: L := by
        simp [List.orderedInsert, hr]
      rw [hins]
      by_cases hv : k a = v <;> simp [List.filter_cons, hv]
    · have hins : List.orderedInsert (fun x y => k y ≤ k x) a (b :: L) =
          b :: List.orderedInsert (fun x y => k y ≤ k x) a L := by
        simp [List.orderedInsert, hr]
      rw [hins]
      by_cases hv : k a = v
      · have hbv : ¬ (k b = v) := by
          intro hb
          exact hr (le_of_eq (hb.trans hv.symm))
        simp [List.filter_cons, hbv, hv, ih]
      · by_cases hbv : k b = v <;> simp [List.filter_cons, hbv, hv, ih]

/-- Stability of the descending sort: the elements carrying any single key
value keep their input order. -/
theorem filter_key_sortDescBy {α : Type} (k : α → ℚ) (v : ℚ) (l : List α) :
    (sortDescBy k l).filter (fun x => k x = v) = l.filter (fun x => k x = v) := by
  induction l with
  | nil => rfl
  | cons a l ih =>
    have hs : sortDescBy k (a :: l) =
        List.orderedInsert (fun x y => k y ≤ k x) a (sortDescBy k l) := rfl
    rw [hs, filter_key_orderedInsert]
    by_cases hv : k a = v <;> simp [List.filter_cons, hv, ih]

/-- Ordered insertion commutes with mapping when the key of a mapped
element is the composed key. -/
theorem orderedInsert_map {α β : Type} (k : β → ℚ) (f : α → β) (a : α) (l : List α) :
    List.orderedInsert (fun x y => k y ≤ k x) (f a) (l.map f) =
      (List.orderedInsert (fun x y => k (f y) ≤ k (f x)) a l).map f := by
  induction l with
  | nil => simp [List.orderedInsert]
  | cons b l ih =>
    by_cases hr : k (f b) ≤ k (f a)
    · simp [List.orderedInsert, hr]
    · simp [List.orderedInsert, hr, ih]

/-- The stable descending sort commutes with mapping when the key of a
mapped element is the composed key. -/
theorem sortDescBy_map {α β : Type} (k : β → ℚ) (f : α → β) (l : List α) :
    sortDescBy k (l.map f) = (sortDescBy (fun x => k (f x)) l).map f := by
  induction l with
  | nil => rfl
  | cons a l ih =>
    show List.orderedInsert _ (f a) (sortDescBy k (l.map f)) = _
    rw [ih]
    exact orderedInsert_map k f a (sortDescBy (fun x => k (f x)) l)

/-- Pointwise-equal functions give equal flat maps. -/
theorem flatMap_congr_mem {α β : Type} {ps : List α} {g h : α → List β}
    (H : ∀ p ∈ ps, g p = h p) : ps.flatMap g = ps.flatMap h := by
  induction ps with
  | nil => rfl
  | cons a ps ih =>
    rw [List.flatMap_cons, List.flatMap_cons, H a (List.mem_cons_self a ps),
      ih (fun p hp => H p (List.mem_cons_of_mem a hp))]

/-- Concatenating the filters of a list over a duplicate-free cover of its
key values permutes the list. -/
theorem flatMap_filter_key_perm {α : Type} (f : α → String) :
    ∀ ps : List String, ps.Nodup → ∀ l : List α, (∀ x ∈ l, f x ∈ ps) →
      List.Perm (ps.flatMap (fun p => l.filter (fun x => f x = p))) l := by
  intro ps
  induction ps with
  | nil =>
    intro _ l hcov
    have hl : l = [] := List.eq_nil_iff_forall_not_mem.mpr (fun x hx => by
      simpa using hcov x hx)
    simp [hl]
  | cons pk ps ih =>
    intro hnd l hcov
    have hp : pk ∉ ps := (List.nodup_cons.mp hnd).1
    have hnd2 : ps.Nodup := (List.nodup_cons.mp hnd).2
    rw [List.flatMap_cons]
    have hinner : ∀ q ∈ ps,
        l.filter (fun x => f x = q) =
          (l.filter (fun x => ! decide (f x = pk))).filter (fun x => f x = q) := by
      intro q hq
      rw [List.filter_filter]
      apply List.filter_congr
      intro x _
      by_cases hxq : f x = q
      · have hxp : ¬ (f x = pk) := by
          intro hxp
          exact hp ((hxq.symm.trans hxp) ▸ hq)
        simp [hxq, hxp]
        intro e
        exact hp (e ▸ hq)
      · simp [hxq]
    have hcov2 : ∀ x ∈ l.filter (fun x => ! decide (f x = pk)), f x ∈ ps := by
      intro x hx
      obtain ⟨hxl, hxp⟩ := List.mem_filter.mp hx
      have : f x ≠ pk := by
        intro e
        simp [e] at hxp
      rcases List.mem_cons.mp (hcov x hxl) with h | h
      · exact absurd h this
      · exact h
    have hrest : List.Perm (ps.flatMap (fun p => l.filter (fun x => f x = p)))
        (l.filter (fun x => ! decide (f x = pk))) := by
      rw [flatMap_congr_mem hinner]
      exact ih hnd2 _ hcov2
    exact List.Perm.trans (List.Perm.append_left _ hrest) (List.filter_append_perm _ l)

/-- Re-stamping an item with the platform it already carries is the
identity. -/
theorem setPlatform_self (s : Item) (p : String) (h : s.platform = p) :
    ({ s with platform := p } : Item) = s := by
  cases s
  subst h
  rfl

/-- The flattened regrouped list is a permutation of the grouped list. -/
theorem analysisAllShows_regroup_perm (l : List Item) :
    List.Perm (analysisAllShows (regroupByPlatform l)) l := by
  have hmain : analysisAllShows (regroupByPlatform l) =
      ((l.map (fun s => s.platform)).dedup).flatMap
        (fun p => l.filter (fun s => s.platform = p)) := by
    unfold analysisAllShows regroupByPlatform
    rw [List.flatMap_map]
    apply flatMap_congr_mem
    intro p _
    show (l.filter (fun s => s.platform = p)).map (fun s => { s with platform := p }) = _
    have hid : ∀ s ∈ l.filter (fun s => s.platform = p),
        ({ s with platform := p } : Item) = id s := by
      intro s hs
      have hp : s.platform = p := by
        simpa using (List.mem_filter.mp hs).2
      simpa using setPlatform_self s p hp
    rw [List.map_congr_left hid, List.map_id]
  rw [hmain]
  exact flatMap_filter_key_perm (fun s => s.platform) _
    (List.nodup_dedup _) l
    (fun x hx => List.mem_dedup.mpr (List.mem_map_of_mem (fun s => s.platform) hx))

/-- The flattened regrouped list has the length of the grouped list. -/
theorem analysisAllShows_regroup_length (l : List Item) :
    (analysisAllShows (regroupByPlatform l)).length = l.length :=
  (analysisAllShows_regroup_perm l).length_eq

/-- Members of the flattened regrouped list come from the grouped list. -/
theorem mem_of_analysisAllShows_regroup {l : List Item} {x : Item}
    (h : x ∈ analysisAllShows (regroupByPlatform l)) : x ∈ l :=
  (analysisAllShows_regroup_perm l).mem_iff.mp h

/-- Every member of the approved output list carries a stored approved
flag. -/
theorem contentFilter_approved_flag (o : Draws) (content_list : List Item) (filters : Filters) :
    ∀ it ∈ (contentFilterExecute o content_list filters).approved, itemApproved it = true := by
  intro it hit
  exact (List.mem_filter.mp hit).2

/-- Every member of the filtered-out output list carries a stored rejected
flag. -/
theorem contentFilter_filtered_flag (o : Draws) (content_list : List Item) (filters : Filters) :
    ∀ it ∈ (contentFilterExecute o content_list filters).filtered_out,
      itemApproved it = false := by
  intro it hit
  have h2 := (List.mem_filter.mp hit).2
  simpa using h2

/-- The stored approved flag of a filtered item, characterized by the four
checks of ContentFilterAgent.execute. -/
theorem filterStatusOf_approved_iff (mr : String) (eg : List String) (mq : ℚ) (cw : Bool)
    (crt : String) (cws : List String) (g : String) (q : ℚ) :
    ((filterStatusOf mr eg mq cw crt cws g q).approved = true ↔
      (ratingHierarchy.indexOf crt ≤ maxRatingLevel mr ∧ g ∉ eg ∧ mq ≤ q ∧
        (cw = true ∨ "none" ∈ cws))) := by
  unfold filterStatusOf
  simp [Bool.and_eq_true, decide_eq_true_eq]
  tauto

/-- The approved flag stored by the per-item filter enrichment. -/
theorem itemApproved_filterEnrich (o : Draws) (filters : Filters) (it : Item) :
    itemApproved (filterEnrich o filters it) =
      (filterStatusOf (filters.max_content_rating.getD "TV-MA") filters.exclude_genres
        (filters.min_quality_score.getD 7.0) (filters.content_warnings_ok.getD true)
        (o.contentRatingDraw it.title) (o.warningsDraw it.title) it.genre it.rating).approved :=
  rfl

/-- Approved items of the filter stage never carry an excluded genre. -/
theorem approved_genre_not_excluded {o : Draws} {filters : Filters} {content_list : List Item}
    {it : Item} (h : it ∈ (contentFilterExecute o content_list filters).approved) :
    it.genre ∉ filters.exclude_genres := by
  have hmem := (List.mem_filter.mp h).1
  have happ := (List.mem_filter.mp h).2
  obtain ⟨y, _, rfl⟩ := List.mem_map.mp hmem
  rw [itemApproved_filterEnrich] at happ
  have hgenre : (filterEnrich o filters y).genre = y.genre := rfl
  rw [hgenre]
  exact ((filterStatusOf_approved_iff _ _ _ _ _ _ _ _).mp happ).2.1

/-- C1: the claim states that a run with an empty candidate set (zero
candidates from the provider, or zero items approved by the filter) yields
a PipelineResult with an empty recommendation list and zero-valued
statistics, the mean-base-rating computation being guarded at zero items.
The code is not guarded: the mean base rating of AnalysisAgent.execute
divides by the item count, so both empty-run triggers raise
ZeroDivisionError, which the coordinator converts into an error result
instead of a PipelineResult.  This theorem evaluates the pipeline at both
failing inputs: the empty candidate map, and the built-in catalog with a
minimum quality of 11, which approves zero items. -/
theorem c1_empty_candidate_run_division_error :
    runPipeline {} {} {} {} [] = .error "division by zero" ∧
    runPipeline {} {} { min_quality_score := some 11 } {} researchResults =
      .error "division by zero" := by
  constructor
  · with_unfolding_all rfl
  · with_unfolding_all rfl

/-- C4: for every input score triple, the trust score of
ReviewAggregationAgent equals ten minus a twentieth of the population
variance of the three primary scores, clamped between zero and ten; it
always lies in that interval, and an all-equal triple (variance zero)
yields exactly ten.  The last conjunct identifies the three primary scores
on every item the stage processes: the scaled review score and the two
jittered percentage scores. -/
theorem c4_trust_score_formula_and_bounds (s1 s2 s3 : ℚ) :
    trustScore s1 s2 s3 = pymax 0 (pymin 10 (10 - reviewVariance s1 s2 s3 / 20)) ∧
    0 ≤ trustScore s1 s2 s3 ∧ trustScore s1 s2 s3 ≤ 10 ∧
    (s1 = s2 → s2 = s3 → trustScore s1 s2 s3 = 10) ∧
    (∀ (o : Draws) (it : Item), (reviewEnrich o it).trust_score =
      some (trustScore (it.rating * 10) (it.rating * 10 + o.rtJitter it.title)
        (it.rating * 10 + o.mcJitter it.title))) := by
  have hform : trustScore s1 s2 s3 = pymax 0 (pymin 10 (10 - reviewVariance s1 s2 s3 / 20)) := rfl
  refine ⟨hform, ?_, ?_, ?_, fun o it => rfl⟩
  · rw [hform]
    exact (pymax_pymin_bounds _).1
  · rw [hform]
    exact (pymax_pymin_bounds _).2
  · intro h12 h23
    subst h12
    subst h23
    rw [hform, reviewVariance_eq_zero]
    norm_num [pymax, pymin]

/-- Witness for C4 at the all-equal triple of value eighty. -/
theorem c4_trust_score_witness :
    (80 : ℚ) = 80 ∧ trustScore 80 80 80 = 10 :=
  ⟨rfl, (c4_trust_score_formula_and_bounds 80 80 80).2.2.2.1 rfl rfl⟩

/-- C7: the genre multiplier mapping of PersonalizationAgent assigns 1.5
to every favorite genre and 0.3 to every disliked genre; a genre in both
lists receives 0.3 because the dislike loop runs after the favorite loop,
and a genre in neither list has no entry (so the ranking default of 1.0
applies). -/
theorem c7_genre_weights_dislike_wins (favs dislikes : List String) (g : String) :
    (g ∈ dislikes → dictGet? (genreWeights favs dislikes) g = some 0.3) ∧
    (g ∈ favs → g ∉ dislikes → dictGet? (genreWeights favs dislikes) g = some 1.5) ∧
    (g ∉ favs → g ∉ dislikes → dictGet? (genreWeights favs dislikes) g = none) := by
  have hunfold : genreWeights favs dislikes =
      dislikes.foldl (fun d x => dictSet d x 0.3)
        (favs.foldl (fun d x => dictSet d x 1.5) []) := rfl
  refine ⟨fun hd => ?_, fun hf hnd => ?_, fun hnf hnd => ?_⟩
  · rw [hunfold, dictGet?_foldl_const]
    simp [hd]
  · rw [hunfold, dictGet?_foldl_const]
    rw [if_neg hnd, dictGet?_foldl_const, if_pos hf]
  · rw [hunfold, dictGet?_foldl_const]
    rw [if_neg hnd, dictGet?_foldl_const, if_neg hnf]
    simp [dictGet?]

/-- Witness for C7: drama is both a favorite and a dislike and resolves to
the dislike multiplier. -/
theorem c7_genre_weights_witness :
    "drama" ∈ ["horror", "drama"] ∧
    dictGet? (genreWeights ["sci-fi", "drama"] ["horror", "drama"]) "drama" = some 0.3 :=
  ⟨by decide,
   (c7_genre_weights_dislike_wins ["sci-fi", "drama"] ["horror", "drama"] "drama").1 (by decide)⟩

/-- C8: when the maximum content rating of the filter criteria is not one
of the six known labels, the filter level becomes the hierarchy length, so
the rating sub-check passes for every item whose assigned rating is in the
hierarchy; no error is raised and approval reduces to the remaining three
checks. -/
theorem c8_unknown_rating_no_ceiling (mr : String) (hmr : mr ∉ ratingHierarchy)
    (eg : List String) (mq : ℚ) (cw : Bool) (crt : String) (hcrt : crt ∈ ratingHierarchy)
    (cws : List String) (g : String) (q : ℚ) :
    (filterStatusOf mr eg mq cw crt cws g q).passes_rating = true ∧
    (filterStatusOf mr eg mq cw crt cws g q).approved =
      ((filterStatusOf mr eg mq cw crt cws g q).passes_genre &&
       (filterStatusOf mr eg mq cw crt cws g q).passes_quality &&
       (filterStatusOf mr eg mq cw crt cws g q).passes_warnings) := by
  have hlevel : maxRatingLevel mr = ratingHierarchy.length := by
    unfold maxRatingLevel
    rw [if_neg hmr]
  have hle : ratingHierarchy.indexOf crt ≤ maxRatingLevel mr := by
    rw [hlevel]
    exact le_of_lt (List.indexOf_lt_length.mpr hcrt)
  have hpr : (filterStatusOf mr eg mq cw crt cws g q).passes_rating = true := by
    unfold filterStatusOf
    simpa using hle
  refine ⟨hpr, ?_⟩
  have happ : (filterStatusOf mr eg mq cw crt cws g q).approved =
      ((filterStatusOf mr eg mq cw crt cws g q).passes_rating &&
       (filterStatusOf mr eg mq cw crt cws g q).passes_genre &&
       (filterStatusOf mr eg mq cw crt cws g q).passes_quality &&
       (filterStatusOf mr eg mq cw crt cws g q).passes_warnings) := rfl
  rw [happ, hpr]
  simp

/-- Witness for C8 at the unknown label NC-17 with a drawn rating of R. -/
theorem c8_unknown_rating_witness :
    ("NC-17" : String) ∉ ratingHierarchy ∧ ("R" : String) ∈ ratingHierarchy ∧
    (filterStatusOf "NC-17" [] 7 true "R" [] "drama" 9).passes_rating = true :=
  ⟨by decide, by decide,
   (c8_unknown_rating_no_ceiling "NC-17" (by decide) [] 7 true "R" (by decide) [] "drama" 9).1⟩

/-- C3: the approved flag of the filter stage is the exact conjunction of
its four stored sub-checks for every combination of inputs, characterized
by the four conditions of the code; the stage partitions its input into
the approved and filtered-out lists (together a permutation of the
enriched input), and the reported total equals the approved count plus the
filtered count. -/
theorem c3_filter_approved_conjunction (o : Draws) (content_list : List Item)
    (filters : Filters) :
    (∀ (mr : String) (eg : List String) (mq : ℚ) (cw : Bool) (crt : String)
        (cws : List String) (g : String) (q : ℚ),
      (filterStatusOf mr eg mq cw crt cws g q).approved =
        ((filterStatusOf mr eg mq cw crt cws g q).passes_rating &&
         (filterStatusOf mr eg mq cw crt cws g q).passes_genre &&
         (filterStatusOf mr eg mq cw crt cws g q).passes_quality &&
         (filterStatusOf mr eg mq cw crt cws g q).passes_warnings) ∧
      ((filterStatusOf mr eg mq cw crt cws g q).approved = true ↔
        (ratingHierarchy.indexOf crt ≤ maxRatingLevel mr ∧ g ∉ eg ∧ mq ≤ q ∧
         (cw = true ∨ "none" ∈ cws)))) ∧
    (∀ it : Item, it ∈ (contentFilterExecute o content_list filters).approved ↔
      (it ∈ content_list.map (filterEnrich o filters) ∧ itemApproved it = true)) ∧
    (∀ it : Item, it ∈ (contentFilterExecute o content_list filters).filtered_out ↔
      (it ∈ content_list.map (filterEnrich o filters) ∧ itemApproved it = false)) ∧
    List.Perm ((contentFilterExecute o content_list filters).approved ++
        (contentFilterExecute o content_list filters).filtered_out)
      (content_list.map (filterEnrich o filters)) ∧
    (contentFilterExecute o content_list filters).total_checked =
      (contentFilterExecute o content_list filters).approved_count +
      (contentFilterExecute o content_list filters).filtered_count := by
  refine ⟨fun mr eg mq cw crt cws g q => ⟨rfl, filterStatusOf_approved_iff _ _ _ _ _ _ _ _⟩,
    ?_, ?_, ?_, ?_⟩
  · intro it
    exact List.mem_filter
  · intro it
    constructor
    · intro h
      have h2 := List.mem_filter.mp h
      exact ⟨h2.1, by simpa using h2.2⟩
    · rintro ⟨h1, h2⟩
      exact List.mem_filter.mpr ⟨h1, by simp [h2]⟩
  · exact List.filter_append_perm itemApproved (content_list.map (filterEnrich o filters))
  · have hlen := (List.filter_append_perm itemApproved
      (content_list.map (filterEnrich o filters))).length_eq
    rw [List.length_append, List.length_map] at hlen
    exact hlen.symm

/-- C5: with preference weights supplied, the personalized score of every
show is the base rating times the genre weight (defaulting to one for a
genre without an entry); with a mood profile also supplied, the final
score of every show is the personalized score times the mood-genre boost,
the energetic mood boosting action by 1.2 and sci-fi by 1.1, and every
genre without a boost entry receiving 1.0. -/
theorem c5_personalized_and_final_score (p : Prefs) (m : MoodProfile) (show0 : Item) :
    (applyPrefs p show0).personalized_score =
      some (show0.rating * dictGetD p.genre_weights show0.genre 1.0) ∧
    (dictGet? p.genre_weights show0.genre = none →
      (applyPrefs p show0).personalized_score = some (show0.rating * 1.0)) ∧
    (applyMood m (applyPrefs p show0)).final_score =
      some ((show0.rating * dictGetD p.genre_weights show0.genre 1.0) *
        moodBoostOf m.detected_mood show0.genre) ∧
    (∀ l : List Item, scoreShows (some p) (some m) l =
      l.map (fun s => applyMood m (applyPrefs p s))) ∧
    moodBoostOf "energetic" "action" = 1.2 ∧
    moodBoostOf "energetic" "sci-fi" = 1.1 ∧
    (∀ g : String, dictGet? (dictGetD moodBoosts m.detected_mood []) g = none →
      moodBoostOf m.detected_mood g = 1.0) := by
  refine ⟨rfl, fun h => ?_, rfl, fun l => ?_, ?_, ?_, fun g h => ?_⟩
  · simp [applyPrefs, dictGetD, h]
  · show (l.map (applyPrefs p)).map (applyMood m) = l.map (fun s => applyMood m (applyPrefs p s))
    rw [List.map_map]
    rfl
  · with_unfolding_all rfl
  · with_unfolding_all rfl
  · simp only [moodBoostOf, dictGetD] at h ⊢
    rw [h]
    rfl

/-- Witness for C5: a genre with no weight entry receives the default
multiplier of one. -/
theorem c5_score_witness :
    dictGet? (personalizationExecute {}).genre_weights "animation" = none ∧
    (applyPrefs (personalizationExecute {})
      { title := "Arcane", genre := "animation", rating := 9,
        platform := "netflix" }).personalized_score = some ((9 : ℚ) * 1.0) := by
  have h : dictGet? (personalizationExecute {}).genre_weights "animation" = none := by
    with_unfolding_all rfl
  exact ⟨h, (c5_personalized_and_final_score (personalizationExecute {})
    (moodDetectionExecute {}) _).2.1 h⟩

/-- C6: the ranking of AnalysisAgent sorts the scored shows in descending
order of the selected sort key, which is the highest-precedence score
present (final score when a mood profile was supplied, else the
personalized score when preferences were supplied, else the base rating,
in each case read with the base rating as fallback); the result is a
permutation of the scored input, and the sort is stable: for every key
value the items carrying it keep their input order. -/
theorem c6_ranking_sort_descending_stable (preferences : Option Prefs)
    (mood : Option MoodProfile) (all_shows : List Item) :
    (rankShows preferences mood all_shows).Sorted
      (fun a b => scoreKey preferences mood b ≤ scoreKey preferences mood a) ∧
    List.Perm (rankShows preferences mood all_shows)
      (scoreShows preferences mood all_shows) ∧
    (∀ v : ℚ, (rankShows preferences mood all_shows).filter
        (fun x => scoreKey preferences mood x = v) =
      (scoreShows preferences mood all_shows).filter
        (fun x => scoreKey preferences mood x = v)) ∧
    (∀ (m : MoodProfile) (s : Item),
      scoreKey preferences (some m) s = s.final_score.getD s.rating) ∧
    (∀ (p : Prefs) (s : Item),
      scoreKey (some p) none s = s.personalized_score.getD s.rating) ∧
    (∀ s : Item, scoreKey none none s = s.rating) :=
  ⟨sortDescBy_sorted _ _, sortDescBy_perm _ _,
   fun v => filter_key_sortDescBy _ v _,
   fun _ _ => rfl, fun _ _ => rfl, fun _ => rfl⟩

/-- A mood outside the boost table boosts every genre by one. -/
theorem moodBoostOf_unknown (m : String)
    (hm : m ∉ (["energetic", "relaxed", "thoughtful"] : List String)) (g : String) :
    moodBoostOf m g = 1.0 := by
  have h1 : ¬ ("energetic" = m) := fun e => hm (by rw [← e]; simp)
  have h2 : ¬ ("relaxed" = m) := fun e => hm (by rw [← e]; simp)
  have h3 : ¬ ("thoughtful" = m) := fun e => hm (by rw [← e]; simp)
  simp [moodBoostOf, moodBoosts, dictGetD, dictGet?, List.find?, h1, h2, h3]

/-- Clearing the score fields ignores the preference step. -/
theorem coreOf_applyPrefs (p : Prefs) (s : Item) : coreOf (applyPrefs p s) = coreOf s := rfl

/-- Clearing the score fields ignores the mood step. -/
theorem coreOf_applyMood (m : MoodProfile) (s : Item) : coreOf (applyMood m s) = coreOf s := rfl

/-- The two scoring steps compose to one map when both inputs are
supplied. -/
theorem scoreShows_some_some (p : Prefs) (m : MoodProfile) (l : List Item) :
    scoreShows (some p) (some m) l = l.map (fun s => applyMood m (applyPrefs p s)) := by
  show (l.map (applyPrefs p)).map (applyMood m) = _
  rw [List.map_map]
  rfl

/-- Scored shows keep the genre of an input show. -/
theorem mem_scoreShows_genre {popt : Option Prefs} {mopt : Option MoodProfile}
    {l : List Item} {s : Item} (h : s ∈ scoreShows popt mopt l) :
    ∃ x, x ∈ l ∧ s.genre = x.genre := by
  rcases popt with _ | p <;> rcases mopt with _ | m
  · exact ⟨s, h, rfl⟩
  · obtain ⟨x, hx, rfl⟩ := List.mem_map.mp h
    exact ⟨x, hx, rfl⟩
  · obtain ⟨x, hx, rfl⟩ := List.mem_map.mp h
    exact ⟨x, hx, rfl⟩
  · obtain ⟨y, hy, rfl⟩ := List.mem_map.mp h
    obtain ⟨x, hx, rfl⟩ := List.mem_map.mp hy
    exact ⟨x, hx, rfl⟩

/-- Fields of a successful analysis result. -/
theorem analysisExecute_ok_fields {data : List (String × List Item)} {popt : Option Prefs}
    {mopt : Option MoodProfile} {a : Analysis}
    (h : analysisExecute data popt mopt = .ok a) :
    a.total_analyzed = (analysisAllShows data).length ∧
    a.ranked_content = rankShows popt mopt (analysisAllShows data) := by
  simp only [analysisExecute] at h
  split at h
  · exact absurd h (by simp)
  · injection h with h2
    subst h2
    exact ⟨rfl, rfl⟩

/-- The counts reported by the filter stage are the lengths of its two
output lists and of its input. -/
theorem contentFilter_counts (o : Draws) (l : List Item) (filters : Filters) :
    (contentFilterExecute o l filters).approved_count =
      (contentFilterExecute o l filters).approved.length ∧
    (contentFilterExecute o l filters).filtered_count =
      (contentFilterExecute o l filters).filtered_out.length ∧
    (contentFilterExecute o l filters).total_checked = l.length :=
  ⟨rfl, rfl, rfl⟩

/-- Every recommendation record takes its genre from a ranked item. -/
theorem recommendationExecute_genre {analysis : Analysis} {r : Recommendation}
    (h : r ∈ (recommendationExecute analysis).recommendations) :
    ∃ s, s ∈ analysis.ranked_content ∧ r.genre = s.genre := by
  obtain ⟨pr, hpr, rfl⟩ := List.mem_map.mp h
  refine ⟨pr.2, ?_, rfl⟩
  have hget := List.mem_enum_iff_getElem?.mp hpr
  have hmem : pr.2 ∈ analysis.ranked_content.take 5 := List.getElem?_mem hget
  exact List.take_subset _ _ hmem

/-- C10: for every supplied mood profile whose detected mood is outside
the boost table (everything but energetic, relaxed and thoughtful, in
particular the detectable moods fun and neutral), the boost is one for
every genre, so the final score of every ranked show equals its
personalized score and the ranking coincides with the preference-only
ranking item for item. -/
theorem c10_unboosted_mood_preserves_ranking (m : MoodProfile)
    (hm : m.detected_mood ∉ (["energetic", "relaxed", "thoughtful"] : List String))
    (p : Prefs) (all_shows : List Item) :
    (∀ g : String, moodBoostOf m.detected_mood g = 1.0) ∧
    (∀ s ∈ rankShows (some p) (some m) all_shows,
      s.final_score = s.personalized_score) ∧
    (rankShows (some p) (some m) all_shows).map coreOf =
      (rankShows (some p) none all_shows).map coreOf := by
  have hboost : ∀ g, moodBoostOf m.detected_mood g = 1.0 := moodBoostOf_unknown _ hm
  refine ⟨hboost, ?_, ?_⟩
  · intro s hs
    have hs2 : s ∈ scoreShows (some p) (some m) all_shows :=
      (sortDescBy_perm _ _).mem_iff.mp hs
    rw [scoreShows_some_some] at hs2
    obtain ⟨x, _, rfl⟩ := List.mem_map.mp hs2
    simp [applyMood, applyPrefs, hboost]
    norm_num
  · have e1 : rankShows (some p) (some m) all_shows =
        sortDescBy (scoreKey (some p) (some m))
          ((all_shows.map (applyPrefs p)).map (applyMood m)) := rfl
    have hkey : (fun x => scoreKey (some p) (some m) (applyMood m x)) =
        fun x => scoreKey (some p) none x := by
      funext x
      simp [scoreKey, applyMood, hboost]
      norm_num
    have hmapped : rankShows (some p) (some m) all_shows =
        (sortDescBy (fun x => scoreKey (some p) none x)
          (all_shows.map (applyPrefs p))).map (applyMood m) := by
      rw [e1, sortDescBy_map, hkey]
    have e2 : rankShows (some p) none all_shows =
        sortDescBy (fun x => scoreKey (some p) none x) (all_shows.map (applyPrefs p)) := rfl
    rw [hmapped, e2, List.map_map]
    apply List.map_congr_left
    intro s _
    exact coreOf_applyMood m s

/-- Witness for C10 at the neutral mood detected from an empty query and a
single action show. -/
theorem c10_unboosted_mood_witness :
    (moodDetectionExecute {}).detected_mood ∉
      (["energetic", "relaxed", "thoughtful"] : List String) ∧
    (rankShows (some (personalizationExecute {})) (some (moodDetectionExecute {}))
        [{ title := "The Boys", genre := "action", rating := 8.7,
           platform := "prime_video" }]).map coreOf =
      (rankShows (some (personalizationExecute {})) none
        [{ title := "The Boys", genre := "action", rating := 8.7,
           platform := "prime_video" }]).map coreOf := by
  have hm : (moodDetectionExecute {}).detected_mood ∉
      (["energetic", "relaxed", "thoughtful"] : List String) := by
    with_unfolding_all decide
  exact ⟨hm, (c10_unboosted_mood_preserves_ranking (moodDetectionExecute {}) hm
    (personalizationExecute {}) _).2.2⟩

/-- C9 as amended: in every run, the total-options insight equals the
number of candidates approved by the safety filter (the approved workflow
statistic), because phase 5 analyzes only the approved candidates and the
insight reports the analyzed count; it does not in general equal the
number of candidates fetched in phase 2. -/
theorem c9_amended_total_options_eq_approved (user_profile : UserProfile)
    (context : SessionContext) (filters : Filters) (o : Draws)
    (research_data : List (String × List Seed)) :
    pipelineTotalOptions (runPipeline user_profile context filters o research_data) =
      pipelineApprovedCount (runPipeline user_profile context filters o research_data) := by
  rcases hx : analysisExecute (regroupByPlatform (contentFilterExecute o
      (trendAnalysisExecute o (reviewAggregationExecute o
        (flattenCandidates research_data))) filters).approved)
      (some (personalizationExecute user_profile))
      (some (moodDetectionExecute context)) with e | a
  · have hrun : runPipeline user_profile context filters o research_data = .error e := by
      simp only [runPipeline]
      rw [hx]
    rw [hrun]
    rfl
  · have h1 : pipelineTotalOptions
        (runPipeline user_profile context filters o research_data) = a.total_analyzed := by
      simp only [runPipeline]
      rw [hx]
      rfl
    have h2 : pipelineApprovedCount
        (runPipeline user_profile context filters o research_data) =
        (contentFilterExecute o (trendAnalysisExecute o (reviewAggregationExecute o
          (flattenCandidates research_data))) filters).approved_count := by
      simp only [runPipeline]
      rw [hx]
      rfl
    rw [h1, h2, (analysisExecute_ok_fields hx).1, analysisAllShows_regroup_length]
    exact ((contentFilter_counts _ _ _).1).symm

/-- C9 counterexample: a concrete successful run over two fetched
candidates of which one is filtered out reports a total-options insight of
one while the phase-2 fetch count and the total-checked statistic are two,
refuting the claim that the total-options insight equals the fetched
count. -/
theorem c9_total_options_counterexample :
    pipelineTotalOptions cexRun = 1 ∧
    pipelineTotalProcessed cexRun = 2 ∧
    (flattenCandidates cexCandidates).length = 2 ∧
    pipelineTotalOptions cexRun ≠ pipelineTotalProcessed cexRun := by
  have h1 : pipelineTotalOptions cexRun = 1 := by with_unfolding_all rfl
  have h2 : pipelineTotalProcessed cexRun = 2 := by with_unfolding_all rfl
  refine ⟨h1, h2, by with_unfolding_all rfl, ?_⟩
  rw [h1, h2]
  decide

/-- C2: the safety filter is the only removing stage and its verdict is
final.  First conjunct: in any filter run, an input item whose genre is
excluded lands (enriched) in the filtered-out list, regardless of its
rating.  Second conjunct: every item reaching the ranking stage of the
pipeline carries an approved filter verdict.  Third conjunct: no
recommendation of any pipeline run carries an excluded genre. -/
theorem c2_safety_filter_invariant (user_profile : UserProfile) (context : SessionContext)
    (filters : Filters) (o : Draws) (research_data : List (String × List Seed)) :
    (∀ (content_list : List Item) (it : Item), it ∈ content_list →
      it.genre ∈ filters.exclude_genres →
      filterEnrich o filters it ∈ (contentFilterExecute o content_list filters).filtered_out) ∧
    (∀ it ∈ analysisAllShows (regroupByPlatform (contentFilterExecute o
        (trendAnalysisExecute o (reviewAggregationExecute o
          (flattenCandidates research_data))) filters).approved),
      itemApproved it = true) ∧
    (∀ r ∈ recommendationsOf (runPipeline user_profile context filters o research_data),
      r.genre ∉ filters.exclude_genres) := by
  refine ⟨?_, ?_, ?_⟩
  · intro content_list it hmem hexcl
    have henr : filterEnrich o filters it ∈ content_list.map (filterEnrich o filters) :=
      List.mem_map_of_mem _ hmem
    have hflag : itemApproved (filterEnrich o filters it) = false := by
      rw [itemApproved_filterEnrich]
      apply Bool.eq_false_iff.mpr
      intro htrue
      exact ((filterStatusOf_approved_iff _ _ _ _ _ _ _ _).mp htrue).2.1 hexcl
    exact List.mem_filter.mpr ⟨henr, by simp [hflag]⟩
  · intro it hit
    exact contentFilter_approved_flag _ _ _ it (mem_of_analysisAllShows_regroup hit)
  · intro r hr
    rcases hx : analysisExecute (regroupByPlatform (contentFilterExecute o
        (trendAnalysisExecute o (reviewAggregationExecute o
          (flattenCandidates research_data))) filters).approved)
        (some (personalizationExecute user_profile))
        (some (moodDetectionExecute context)) with e | a
    · have hrun : recommendationsOf
          (runPipeline user_profile context filters o research_data) = [] := by
        simp only [runPipeline, recommendationsOf]
        rw [hx]
      rw [hrun] at hr
      exact absurd hr (List.not_mem_nil r)
    · have hrun : recommendationsOf
          (runPipeline user_profile context filters o research_data) =
          (recommendationExecute a).recommendations := by
        simp only [runPipeline, recommendationsOf]
        rw [hx]
      rw [hrun] at hr
      obtain ⟨s, hs, hge⟩ := recommendationExecute_genre hr
      rw [(analysisExecute_ok_fields hx).2] at hs
      have hs2 : s ∈ scoreShows (some (personalizationExecute user_profile))
          (some (moodDetectionExecute context)) (analysisAllShows (regroupByPlatform
            (contentFilterExecute o (trendAnalysisExecute o (reviewAggregationExecute o
              (flattenCandidates research_data))) filters).approved)) :=
        (sortDescBy_perm _ _).mem_iff.mp hs
      obtain ⟨x, hx2, hgx⟩ := mem_scoreShows_genre hs2
      have hxa := mem_of_analysisAllShows_regroup hx2
      rw [hge, hgx]
      exact approved_genre_not_excluded hxa

/-- Witness for C2: the horror candidate of base rating 9.5 with the
horror genre excluded is filtered out; the recommendations of the
concrete run carry no excluded genre. -/
theorem c2_safety_filter_witness :
    cexHorrorItem.genre ∈ cexFilters.exclude_genres ∧
    cexHorrorItem ∈ cexEnriched ∧
    filterEnrich {} cexFilters cexHorrorItem ∈
      (contentFilterExecute {} cexEnriched cexFilters).filtered_out ∧
    (∀ r ∈ recommendationsOf cexRun, r.genre ∉ cexFilters.exclude_genres) := by
  have hlist : cexEnriched = [trendEnrich {} (reviewEnrich {}
      { title := "A", genre := "sci-fi", rating := 9, platform := "netflix" }),
    cexHorrorItem] := rfl
  have hmem : cexHorrorItem ∈ cexEnriched := by
    rw [hlist]
    exact List.mem_cons_of_mem _ (List.mem_cons_self _ _)
  have hexcl : cexHorrorItem.genre ∈ cexFilters.exclude_genres := by
    show "horror" ∈ ["horror"]
    exact List.mem_cons_self _ _
  have hthm := c2_safety_filter_invariant {} {} cexFilters {} cexCandidates
  exact ⟨hexcl, hmem, hthm.1 cexEnriched cexHorrorItem hmem hexcl, hthm.2.2⟩
